import Mathlib

/-!
Verification development for src/shimmy/openspiel_wrapper.py: the
OpenspielWrapper class, which adapts an OpenSpiel game to the PettingZoo
AEC ("agent cycling") interface.

Modelling conventions (shallow embedding of the Python source):

* Agent names.  Python uses the strings "player_0", "player_1", ...; the
  dictionaries agent_id_name_mapping / agent_name_id_mapping (source lines
  26-31) are inverse bijections between the ids 0..n-1 and those strings.
  We represent the name "player_i" by the id i itself, so both mappings
  become the identity on 0..n-1; indexing agent_id_name_mapping[p] raises
  KeyError exactly when p is outside 0..n-1, modelled by WrapErr.keyError.

* Python dicts are association lists in insertion order (Dict below).
  Assignment to an existing key replaces the value in place, assignment to
  a new key appends, matching the CPython dict semantics the source relies
  on (simultaneous_actions.values() is taken in insertion order).

* The external simulator (pyspiel.Game together with pyspiel.State) is an
  abstract structure Game holding exactly the operations the wrapper
  calls.  Operations that can raise pyspiel.SpielError return
  Except SpielError.

* numpy int8 / float vectors are plain lists; np.array(xs) of a list is
  the list itself.  The fancy assignment mask[legal] = 1 is a fold of
  List.set over the legal indices (an index out of range raises
  IndexError in numpy; List.set is then a no-op, and every theorem using
  masks assumes legal actions are in range).

* np_random is an abstract stream of draws in [0, 1); np_random.choice
  with probability weights is inverse-CDF sampling over the weights
  (choiceFromOutcomes).

* The while-loop of _execute_chance_node is given explicit fuel; running
  out of fuel (the loop not terminating) is reported as
  WrapErr.divergence, so a returned .ok value corresponds exactly to a
  Python call that returns.

* Indexing self.terminations / self.truncations / self.infos at a key
  (Python raises KeyError when the key is absent) is modelled with a
  default value via dictGetD; the theorems below rely on it only at keys
  that are present in the dict.
-/

namespace Shimmy

/-- Message carried by a pyspiel.SpielError raised by the simulator. -/
structure SpielError where
  msg : String
deriving DecidableEq

/-- Exceptions the wrapper itself can surface: NotImplementedError (the
only exception the source raises), Python KeyError / IndexError from
indexing, and divergence of the chance-resolution while-loop. -/
inductive WrapErr where
  | notImplementedError (msg : String)
  | keyError
  | indexError
  | divergence
deriving DecidableEq

/-- A Python dict with Nat keys: an association list in insertion order. -/
abbrev Dict (α : Type) : Type := List (Nat × α)

/-- Python d[k] as an Option: the value at the first matching key. -/
def dictFind? {α : Type} : Dict α → Nat → Option α
  | [], _ => none
  | (k, v) :: d, k' => if k = k' then some v else dictFind? d k'

/-- Python membership test k in d. -/
def dictContains {α : Type} (d : Dict α) (k : Nat) : Bool :=
  (dictFind? d k).isSome

/-- Python d[k], with a default standing in for KeyError (see header). -/
def dictGetD {α : Type} (d : Dict α) (k : Nat) (dflt : α) : α :=
  (dictFind? d k).getD dflt

/-- Replacing the value at the first occurrence of a key, in place
(keys of a Python dict are unique, so the first occurrence is the only
one in every dict the wrapper builds). -/
def dictReplace {α : Type} : Dict α → Nat → α → Dict α
  | [], _, _ => []
  | (k1, v1) :: d, k, v =>
    if k1 = k then (k, v) :: d else (k1, v1) :: dictReplace d k v

/-- Python d[k] = v: replace in place when the key exists, append
otherwise (CPython insertion-order semantics). -/
def dictInsert {α : Type} (d : Dict α) (k : Nat) (v : α) : Dict α :=
  if dictContains d k then dictReplace d k v
  else d ++ [(k, v)]

/-- Python d.values() in insertion order. -/
def dictValues {α : Type} (d : Dict α) : List α := d.map Prod.snd

/-- An observation tensor (list of floats). -/
abbrev Obs : Type := List Rat

/-- The argument Python passes to game_state.apply_action: a single int
action (line 98 and line 123) or the dict_values sequence of collected
simultaneous actions (line 116). -/
inductive PyAction where
  | single (a : Nat)
  | multi (as : List Nat)
deriving DecidableEq

/-- The external simulator: the pyspiel.Game operations and the
pyspiel.State operations the wrapper calls, with the state type GS
abstract.  Fallible operations return Except SpielError. -/
structure Game where
  GS : Type
  num_players : Nat
  max_game_length : Nat
  num_distinct_actions : Except SpielError Nat
  observation_tensor_shape : Except SpielError (List Nat)
  game_str : String
  new_initial_state : GS
  is_chance_node : GS → Bool
  is_simultaneous_node : GS → Bool
  is_terminal : GS → Bool
  current_player : GS → Int
  chance_outcomes : GS → List (Nat × Rat)
  legal_actions : GS → Nat → List Nat
  apply_action : GS → PyAction → GS
  observation_tensor : GS → Nat → Except SpielError Obs
  rewards : GS → List Rat

/-- The seeded numpy Generator: an abstract stream of draws in [0, 1). -/
structure RNG where
  draws : Nat → Rat
  idx : Nat

/-- Drawing once from the generator. -/
def rngNext (r : RNG) : Rat × RNG :=
  (r.draws r.idx, { r with idx := r.idx + 1 })

/-- np_random.choice(action_list, p=prob_list): inverse-CDF sampling of
one outcome according to the paired probabilities. -/
def choiceFromOutcomes : List (Nat × Rat) → Rat → Nat
  | [], _ => 0
  | [(a, _)], _ => a
  | (a, p) :: o :: rest, r =>
    if r < p then a else choiceFromOutcomes (o :: rest) (r - p)

/-- The mutable attributes of an OpenspielWrapper instance after reset:
self.agents, self.agent_selection, self._cumulative_rewards, self.rewards,
self.terminations, self.truncations, self.infos (infos[a] holds only the
key "action_mask", so we store the mask itself), self.game_length,
self.game_state, self.simultaneous_actions, self.np_random,
self.observations. -/
structure WState (g : Game) where
  agents : List Nat
  agent_selection : Nat
  cumulative_rewards : Dict Rat
  rewards : Dict Rat
  terminations : Dict Bool
  truncations : Dict Bool
  infos : Dict (List Int)
  game_length : Nat
  game_state : g.GS
  simultaneous_actions : Dict Nat
  np_random : RNG
  observations : Dict Obs

/-- self.possible_agents (source lines 23-25), names represented by ids. -/
def possible_agents (g : Game) : List Nat := List.range g.num_players

/-- The f-string of lines 42, 49, 140: drop the final character of the
SpielError message and append " for {self.game}.". -/
def pyErrMsg (g : Game) (e : SpielError) : String :=
  e.msg.dropRight 1 ++ " for " ++ g.game_str ++ "."

/-- gymnasium.spaces.Box as used on line 38: only the shape matters here
(the bounds are constant -inf/inf). -/
structure Box where
  shape : List Nat
deriving DecidableEq

/-- gymnasium.spaces.Discrete as used on line 47. -/
structure Discrete where
  n : Nat
deriving DecidableEq

/-- OpenspielWrapper.observation_space (lines 35-42).  The agent argument
is unused by the body (it only keys the lru_cache). -/
def observation_space (g : Game) (agent : Nat) : Except WrapErr Box :=
  match g.observation_tensor_shape with
  | .ok s => .ok ⟨s⟩
  | .error e => .error (.notImplementedError (pyErrMsg g e))

/-- OpenspielWrapper.action_space (lines 44-49).  The agent argument is
unused by the body (it only keys the lru_cache). -/
def action_space (g : Game) (agent : Nat) : Except WrapErr Discrete :=
  match g.num_distinct_actions with
  | .ok n => .ok ⟨n⟩
  | .error e => .error (.notImplementedError (pyErrMsg g e))

/-- OpenspielWrapper.render (lines 51-52): unconditionally raises. -/
def render (g : Game) : Except WrapErr Unit :=
  .error (.notImplementedError "No render available for openspiel.")

/-- OpenspielWrapper.observe (lines 54-55): np.array of the stored
observation list. -/
def observe {g : Game} (env : WState g) (agent : Nat) : Obs :=
  dictGetD env.observations agent []

/-- The while-loop of _execute_chance_node (lines 91-98), on the triple
(game_state, game_length, np_random), with explicit fuel: none models the
loop not terminating within the fuel bound. -/
def execute_chance_node (g : Game) (fuel : Nat) : g.GS → Nat → RNG →
    Option (g.GS × Nat × RNG) :=
  match fuel with
  | 0 => fun s len rng =>
    if g.is_chance_node s then none else some (s, len, rng)
  | f + 1 => fun s len rng =>
    if g.is_chance_node s then
      let d := rngNext rng
      execute_chance_node g f
        (g.apply_action s (.single (choiceFromOutcomes (g.chance_outcomes s) d.1)))
        (len + 1) d.2
    else some (s, len, rng)

/-- self._execute_chance_node() acting on the wrapper state. -/
def run_chance (g : Game) (fuel : Nat) (env : WState g) : Option (WState g) :=
  (execute_chance_node g fuel env.game_state env.game_length env.np_random).map
    (fun r => { env with game_state := r.1, game_length := r.2.1, np_random := r.2.2 })

/-- The dict comprehension of _update_observations (lines 135-138),
evaluated left to right; the first SpielError aborts it. -/
def obs_loop (g : Game) (s : g.GS) : List Nat → Except SpielError (Dict Obs)
  | [] => .ok []
  | a :: rest =>
    match g.observation_tensor s a with
    | .error e => .error e
    | .ok o =>
      match obs_loop g s rest with
      | .error e => .error e
      | .ok d => .ok ((a, o) :: d)

/-- OpenspielWrapper._update_observations (lines 133-140). -/
def update_observations (g : Game) (env : WState g) : Except WrapErr (WState g) :=
  match obs_loop g env.game_state env.agents with
  | .error e => .error (.notImplementedError (pyErrMsg g e))
  | .ok d => .ok { env with observations := d }

/-- Lines 145-146: np.zeros(n) followed by action_mask[legal_actions] = 1. -/
def action_mask (g : Game) (s : g.GS) (n : Nat) (agent_id : Nat) : List Int :=
  (g.legal_actions s agent_id).foldl (fun m j => m.set j 1) (List.replicate n 0)

/-- The loop body of _update_action_masks (lines 143-147): one
action_space call (which may raise) per player, then the infos entry is
assigned. -/
def mask_loop (g : Game) (s : g.GS) :
    List Nat → Dict (List Int) → Except WrapErr (Dict (List Int))
  | [], infos => .ok infos
  | agent_id :: rest, infos =>
    match action_space g agent_id with
    | .error e => .error e
    | .ok d => mask_loop g s rest (dictInsert infos agent_id (action_mask g s d.n agent_id))

/-- OpenspielWrapper._update_action_masks (lines 142-147). -/
def update_action_masks (g : Game) (env : WState g) : Except WrapErr (WState g) :=
  (mask_loop g env.game_state (List.range g.num_players) env.infos).map
    (fun i => { env with infos := i })

/-- OpenspielWrapper._update_rewards (lines 149-155): copy the
simulator's rewards() list into _cumulative_rewards, keyed by agent. -/
def update_rewards (g : Game) (env : WState g) : WState g :=
  let rs := g.rewards env.game_state
  { env with cumulative_rewards :=
      (List.range g.num_players).map (fun i => (i, rs.getD i 0)) }

/-- np.sum of an action mask. -/
def maskSum (m : List Int) : Int := m.sum

/-- The terminations dict _end_routine computes (lines 162-165 and the
mask check of lines 172-175, which only rewrites terminations). -/
def end_terminations (g : Game) (env : WState g) : Dict Bool :=
  let terminations : Dict Bool :=
    if g.is_terminal env.game_state then env.agents.map (fun a => (a, true))
    else env.agents.map (fun a => (a, false))
  env.agents.foldl
    (fun t agent =>
      if maskSum (dictGetD env.infos agent []) = 0 then
        env.agents.map (fun a => (a, true))
      else t)
    terminations

/-- The truncations dict _end_routine computes (lines 167-170). -/
def end_truncations (g : Game) (env : WState g) : Dict Bool :=
  if g.max_game_length < env.game_length then env.agents.map (fun a => (a, true))
  else env.agents.map (fun a => (a, false))

/-- OpenspielWrapper._end_routine (lines 157-188).  Returns the Python
return value paired with the updated state. -/
def end_routine (g : Game) (env : WState g) : Bool × WState g :=
  let terminations := end_terminations g env
  let truncations := end_truncations g env
  if dictGetD terminations env.agent_selection false
      || dictGetD truncations env.agent_selection false then
    let agents' := env.agents.erase env.agent_selection
    (true,
      { env with
        terminations := terminations
        truncations := truncations
        agents := agents'
        agent_selection :=
          match agents' with
          | [] => env.agent_selection
          | a :: _ => a })
  else
    (false, { env with terminations := terminations, truncations := truncations })

/-- The Python boolean _end_routine() returns. -/
def endFlag (g : Game) (env : WState g) : Bool := (end_routine g env).1

/-- OpenspielWrapper._execute_action_node (lines 100-131).  The Python
locals sim (the holder after storing the current agent's action), cum,
s' (the advanced state) and cp (its current player) are written out in
full at each use. -/
def execute_action_node (g : Game) (env : WState g) (action : Nat) :
    Except WrapErr (WState g) :=
  if g.is_simultaneous_node env.game_state then
    match env.agents.find?
        (fun a => ! dictContains
          (dictInsert env.simultaneous_actions env.agent_selection action) a) with
    | some agent =>
      .ok { env with
        simultaneous_actions :=
          dictInsert env.simultaneous_actions env.agent_selection action
        cumulative_rewards := dictInsert env.cumulative_rewards env.agent_selection 0
        agent_selection := agent }
    | none =>
      .ok { env with
        game_state := g.apply_action env.game_state
          (.multi (dictValues (dictInsert env.simultaneous_actions env.agent_selection action)))
        game_length := env.game_length + 1
        simultaneous_actions := []
        cumulative_rewards := dictInsert env.cumulative_rewards env.agent_selection 0 }
  else
    if 0 ≤ g.current_player (g.apply_action env.game_state (.single action)) then
      if (g.current_player (g.apply_action env.game_state (.single action))).toNat
          < g.num_players then
        .ok { env with
          game_state := g.apply_action env.game_state (.single action)
          game_length := env.game_length + 1
          agent_selection :=
            (g.current_player (g.apply_action env.game_state (.single action))).toNat }
      else .error .keyError
    else
      match env.agents with
      | [] => .error .indexError
      | a :: _ =>
        .ok { env with
          game_state := g.apply_action env.game_state (.single action)
          game_length := env.game_length + 1
          agent_selection := a }

/-- The wrapper state reset() builds on lines 65-79 before stepping
through chance nodes: all agents live, fresh bookkeeping dicts keyed by
the agents, game_length 1, the simulator's initial state, an empty
simultaneous-actions holder (self.agent_selection is assigned only at
line 87; the placeholder 0 is overwritten before reset returns). -/
def reset_init (g : Game) (rng : RNG) : WState g :=
  { agents := possible_agents g
    agent_selection := 0
    cumulative_rewards := (possible_agents g).map (fun a => (a, 0))
    rewards := (possible_agents g).map (fun a => (a, 0))
    terminations := (possible_agents g).map (fun a => (a, false))
    truncations := (possible_agents g).map (fun a => (a, false))
    infos := (possible_agents g).map (fun a => (a, []))
    game_length := 1
    game_state := g.new_initial_state
    simultaneous_actions := []
    np_random := rng
    observations := [] }

/-- OpenspielWrapper.reset (lines 60-89).  The seeded generator produced
by seeding.np_random(seed) is the rng argument; fuel bounds the
chance-resolution loop. -/
def reset (g : Game) (fuel : Nat) (rng : RNG) : Except WrapErr (WState g) :=
  match run_chance g fuel (reset_init g rng) with
  | none => .error .divergence
  | some env1 =>
    match update_observations g env1 with
    | .error e => .error e
    | .ok env2 =>
      match update_action_masks g env2 with
      | .error e => .error e
      | .ok env3 =>
        if 0 ≤ g.current_player env3.game_state then
          if (g.current_player env3.game_state).toNat < g.num_players then
            .ok { env3 with
              agent_selection := (g.current_player env3.game_state).toNat }
          else .error .keyError
        else .error .keyError

/-- OpenspielWrapper.step (lines 190-200). -/
def step (g : Game) (fuel : Nat) (env : WState g) (action : Nat) :
    Except WrapErr (WState g) :=
  match end_routine g env with
  | (true, env') => .ok env'
  | (false, env') =>
    match execute_action_node g env' action with
    | .error e => .error e
    | .ok env1 =>
      match run_chance g fuel env1 with
      | none => .error .divergence
      | some env2 =>
        match update_observations g env2 with
        | .error e => .error e
        | .ok env3 =>
          match update_action_masks g env3 with
          | .error e => .error e
          | .ok env4 => .ok (update_rewards g env4)

/-- The states reachable from a state by resolving chance nodes: each
transition applies one action drawn from the chance_outcomes list of the
current state, and the final state is not a chance node. -/
inductive ChanceResolved (g : Game) : g.GS → g.GS → Prop where
  | done (s : g.GS) : g.is_chance_node s = false → ChanceResolved g s s
  | step (s s' : g.GS) (a : Nat) (p : Rat) :
      g.is_chance_node s = true → (a, p) ∈ g.chance_outcomes s →
      ChanceResolved g (g.apply_action s (.single a)) s' →
      ChanceResolved g s s'

/-- The property claim C4 asserts of a wrapper state: every agent's
stored action mask is a binary vector of length n whose entry i equals 1
exactly when i is in legal_actions of the current state for that agent's
id, and equals 0 otherwise. -/
def MaskOK (g : Game) (n : Nat) (e : WState g) : Prop :=
  ∀ id, id < g.num_players →
    (dictGetD e.infos id []).length = n ∧
    ∀ i, i < n →
      ((dictGetD e.infos id []).getD i 0 = 1 ↔ i ∈ g.legal_actions e.game_state id) ∧
      (i ∉ g.legal_actions e.game_state id → (dictGetD e.infos id []).getD i 0 = 0)

/-! ### Concrete simulators used to instantiate and refute claims -/

/-- A concrete generator: the stream of all-zero draws. -/
def rng0 : RNG := { draws := fun _ => 0, idx := 0 }

/-- A concrete one-player turn game: states are Nat, state 0 is the root,
every state k > 0 is terminal, each action moves k to k + 1, player 0 is
always to move, no chance or simultaneous nodes. -/
def G1 : Game where
  GS := Nat
  num_players := 1
  max_game_length := 10
  num_distinct_actions := .ok 2
  observation_tensor_shape := .ok [1]
  game_str := "game1"
  new_initial_state := 0
  is_chance_node := fun _ => false
  is_simultaneous_node := fun _ => false
  is_terminal := fun s => decide (0 < s)
  current_player := fun _ => 0
  chance_outcomes := fun _ => []
  legal_actions := fun s _ => if s = 0 then [0] else []
  apply_action := fun s _ => s + 1
  observation_tensor := fun _ _ => .ok [0]
  rewards := fun _ => [1]

/-- A concrete two-player game in which player 0 has no legal action at
the root while player 1 does, no state is terminal, and the simulator
always reports player 0 as the current player. -/
def G5 : Game where
  GS := Nat
  num_players := 2
  max_game_length := 10
  num_distinct_actions := .ok 2
  observation_tensor_shape := .ok [1]
  game_str := "game5"
  new_initial_state := 0
  is_chance_node := fun _ => false
  is_simultaneous_node := fun _ => false
  is_terminal := fun _ => false
  current_player := fun _ => 0
  chance_outcomes := fun _ => []
  legal_actions := fun s p => if s = 0 then (if p = 0 then [] else [1]) else [0]
  apply_action := fun s _ => s + 1
  observation_tensor := fun _ _ => .ok [0]
  rewards := fun _ => [0, 0]

/-- A concrete one-player game whose root is a chance node with the
single certain outcome 1; state 1 is an ordinary decision node. -/
def G3 : Game where
  GS := Nat
  num_players := 1
  max_game_length := 10
  num_distinct_actions := .ok 2
  observation_tensor_shape := .ok [1]
  game_str := "game3"
  new_initial_state := 0
  is_chance_node := fun s => decide (s = 0)
  is_simultaneous_node := fun _ => false
  is_terminal := fun _ => false
  current_player := fun _ => 0
  chance_outcomes := fun s => if s = 0 then [(1, 1)] else []
  legal_actions := fun _ _ => [0]
  apply_action := fun s _ => s + 1
  observation_tensor := fun _ _ => .ok [0]
  rewards := fun _ => [0]

/-- A concrete two-player game whose root (state 0) is a simultaneous
node; applying the collected actions moves to state 1. -/
def GSim : Game where
  GS := Nat
  num_players := 2
  max_game_length := 10
  num_distinct_actions := .ok 2
  observation_tensor_shape := .ok [1]
  game_str := "gameSim"
  new_initial_state := 0
  is_chance_node := fun _ => false
  is_simultaneous_node := fun s => decide (s = 0)
  is_terminal := fun _ => false
  current_player := fun s => if s = 0 then -2 else 0
  chance_outcomes := fun _ => []
  legal_actions := fun _ _ => [0, 1]
  apply_action := fun s _ => s + 1
  observation_tensor := fun _ _ => .ok [0]
  rewards := fun _ => [0, 0]

/-- A concrete simulator whose shape, action-count and tensor queries
all raise SpielError. -/
def Gerr : Game where
  GS := Nat
  num_players := 1
  max_game_length := 1
  num_distinct_actions := .error ⟨"Action count unknown."⟩
  observation_tensor_shape := .error ⟨"Observation shape unknown."⟩
  game_str := "gameErr"
  new_initial_state := 0
  is_chance_node := fun _ => false
  is_simultaneous_node := fun _ => false
  is_terminal := fun _ => false
  current_player := fun _ => 0
  chance_outcomes := fun _ => []
  legal_actions := fun _ _ => []
  apply_action := fun s _ => s
  observation_tensor := fun _ _ => .error ⟨"No tensor."⟩
  rewards := fun _ => [0]

/-- A live two-agent wrapper state sitting on the simultaneous root of
GSim, with fresh bookkeeping and non-zero action masks. -/
def envSim : WState GSim :=
  { agents := [0, 1], agent_selection := 0,
    cumulative_rewards := [(0, 0), (1, 0)], rewards := [(0, 0), (1, 0)],
    terminations := [(0, false), (1, false)],
    truncations := [(0, false), (1, false)],
    infos := [(0, [1, 1]), (1, [1, 1])], game_length := 1,
    game_state := (0 : Nat), simultaneous_actions := [], np_random := rng0,
    observations := [(0, [0]), (1, [0])] }

/-- The state reset() produces on G1. -/
def e0G1 : WState G1 :=
  { agents := [0], agent_selection := 0, cumulative_rewards := [(0, 0)],
    rewards := [(0, 0)], terminations := [(0, false)], truncations := [(0, false)],
    infos := [(0, [1, 0])], game_length := 1, game_state := (0 : Nat),
    simultaneous_actions := [], np_random := rng0, observations := [(0, [0])] }

/-- The state step(0) produces on G1 after reset. -/
def e1G1 : WState G1 :=
  { agents := [0], agent_selection := 0, cumulative_rewards := [(0, 1)],
    rewards := [(0, 0)], terminations := [(0, false)], truncations := [(0, false)],
    infos := [(0, [0, 0])], game_length := 2, game_state := (1 : Nat),
    simultaneous_actions := [], np_random := rng0, observations := [(0, [0])] }

/-- The state reset() produces on G5. -/
def e0G5 : WState G5 :=
  { agents := [0, 1], agent_selection := 0,
    cumulative_rewards := [(0, 0), (1, 0)], rewards := [(0, 0), (1, 0)],
    terminations := [(0, false), (1, false)],
    truncations := [(0, false), (1, false)],
    infos := [(0, [0, 0]), (1, [0, 1])], game_length := 1,
    game_state := (0 : Nat), simultaneous_actions := [], np_random := rng0,
    observations := [(0, [0]), (1, [0])] }

/-- The state the first step() produces on G5: player 0 retired by its
all-zero mask, both agents flagged terminated. -/
def e1G5 : WState G5 :=
  { agents := [1], agent_selection := 1,
    cumulative_rewards := [(0, 0), (1, 0)], rewards := [(0, 0), (1, 0)],
    terminations := [(0, true), (1, true)],
    truncations := [(0, false), (1, false)],
    infos := [(0, [0, 0]), (1, [0, 1])], game_length := 1,
    game_state := (0 : Nat), simultaneous_actions := [], np_random := rng0,
    observations := [(0, [0]), (1, [0])] }

/-- The state the second step() produces on G5: the action was applied
and the simulator's current player 0, already retired, was selected. -/
def e2G5 : WState G5 :=
  { agents := [1], agent_selection := 0,
    cumulative_rewards := [(0, 0), (1, 0)], rewards := [(0, 0), (1, 0)],
    terminations := [(1, false)], truncations := [(1, false)],
    infos := [(0, [1, 0]), (1, [1, 0])], game_length := 2,
    game_state := (1 : Nat), simultaneous_actions := [], np_random := rng0,
    observations := [(1, [0])] }

theorem reset_G1_eq : reset G1 0 rng0 = .ok e0G1 := rfl

theorem step_G1_eq : step G1 0 e0G1 0 = .ok e1G1 := rfl

theorem reset_G5_eq : reset G5 0 rng0 = .ok e0G5 := rfl

theorem step1_G5_eq : step G5 0 e0G5 9 = .ok e1G5 := rfl

theorem step2_G5_eq : step G5 0 e1G5 1 = .ok e2G5 := rfl

/-! ### Dictionary lemmas -/

theorem dictFind?_map {α : Type} (l : List Nat) (f : Nat → α) (k : Nat) :
    dictFind? (l.map (fun a => (a, f a))) k = if k ∈ l then some (f k) else none := by
  induction l with
  | nil => simp [dictFind?]
  | cons a l ih =>
    simp only [List.map_cons, dictFind?]
    by_cases h : a = k
    · subst h
      simp
    · rw [if_neg h, ih]
      by_cases h2 : k ∈ l
      · rw [if_pos h2, if_pos (List.mem_cons_of_mem _ h2)]
      · rw [if_neg h2, if_neg (fun hm => by
          rcases List.mem_cons.mp hm with he | hm2
          · exact h he.symm
          · exact h2 hm2)]

theorem dictFind?_map_const {α : Type} (l : List Nat) (c : α) (k : Nat) :
    dictFind? (l.map (fun a => (a, c))) k = if k ∈ l then some c else none :=
  dictFind?_map l (fun _ => c) k

theorem dictGetD_map_const {α : Type} (l : List Nat) (c : α) (k : Nat) (d : α)
    (hk : k ∈ l) : dictGetD (l.map (fun a => (a, c))) k d = c := by
  rw [dictGetD, dictFind?_map_const, if_pos hk]
  rfl

theorem dictFind?_replace_ne {α : Type} (d : Dict α) (k k' : Nat) (v : α)
    (h : k' ≠ k) :
    dictFind? (dictReplace d k v) k' = dictFind? d k' := by
  induction d with
  | nil => rfl
  | cons p d ih =>
    obtain ⟨k1, v1⟩ := p
    rw [dictReplace]
    by_cases h1 : k1 = k
    · subst h1
      rw [if_pos rfl]
      show (if k1 = k' then some v else dictFind? d k') = _
      rw [if_neg (fun he => h he.symm), dictFind?, if_neg (fun he => h he.symm)]
    · rw [if_neg h1]
      show (if k1 = k' then some v1 else dictFind? (dictReplace d k v) k') = _
      rw [dictFind?, ih]

theorem dictFind?_replace_self {α : Type} (d : Dict α) (k : Nat) (v : α)
    (h : dictContains d k = true) :
    dictFind? (dictReplace d k v) k = some v := by
  induction d with
  | nil => simp [dictContains, dictFind?] at h
  | cons p d ih =>
    obtain ⟨k1, v1⟩ := p
    rw [dictReplace]
    by_cases h1 : k1 = k
    · subst h1
      rw [if_pos rfl]
      show (if k1 = k1 then some v else dictFind? d k1) = some v
      rw [if_pos rfl]
    · rw [if_neg h1]
      show (if k1 = k then some v1 else dictFind? (dictReplace d k v) k) = some v
      rw [if_neg h1]
      apply ih
      simp only [dictContains, dictFind?, if_neg h1] at h
      exact h

theorem dictFind?_append_single_self {α : Type} (d : Dict α) (k : Nat) (v : α)
    (h : dictContains d k = false) :
    dictFind? (d ++ [(k, v)]) k = some v := by
  induction d with
  | nil =>
    show (if k = k then some v else dictFind? [] k) = some v
    rw [if_pos rfl]
  | cons p d ih =>
    obtain ⟨k1, v1⟩ := p
    simp only [dictContains, dictFind?] at h
    by_cases h1 : k1 = k
    · rw [if_pos h1] at h
      simp at h
    · rw [if_neg h1] at h
      rw [List.cons_append]
      show (if k1 = k then some v1 else dictFind? (d ++ [(k, v)]) k) = some v
      rw [if_neg h1]
      exact ih h

theorem dictFind?_append_single_ne {α : Type} (d : Dict α) (k k' : Nat) (v : α)
    (h : k' ≠ k) :
    dictFind? (d ++ [(k, v)]) k' = dictFind? d k' := by
  induction d with
  | nil =>
    show (if k = k' then some v else dictFind? [] k') = dictFind? [] k'
    rw [if_neg (fun he => h (Eq.symm he))]
  | cons p d ih =>
    obtain ⟨k1, v1⟩ := p
    rw [List.cons_append]
    show (if k1 = k' then some v1 else dictFind? (d ++ [(k, v)]) k') =
      (if k1 = k' then some v1 else dictFind? d k')
    rw [ih]

theorem dictFind?_insert_self {α : Type} (d : Dict α) (k : Nat) (v : α) :
    dictFind? (dictInsert d k v) k = some v := by
  unfold dictInsert
  by_cases h : dictContains d k = true
  · rw [if_pos h]
    exact dictFind?_replace_self d k v h
  · rw [if_neg h]
    exact dictFind?_append_single_self d k v (by
      cases hc : dictContains d k
      · rfl
      · exact absurd hc h)

theorem dictFind?_insert_ne {α : Type} (d : Dict α) (k k' : Nat) (v : α)
    (h : k' ≠ k) :
    dictFind? (dictInsert d k v) k' = dictFind? d k' := by
  unfold dictInsert
  by_cases hc : dictContains d k = true
  · rw [if_pos hc]
    exact dictFind?_replace_ne d k k' v h
  · rw [if_neg hc]
    exact dictFind?_append_single_ne d k k' v h

theorem dictFind?_foldl_insert_not_mem {β : Type} (L : List Nat) (m : Nat → β)
    (d0 : Dict β) (k : Nat) (hk : k ∉ L) :
    dictFind? (L.foldl (fun d i => dictInsert d i (m i)) d0) k = dictFind? d0 k := by
  induction L generalizing d0 with
  | nil => rfl
  | cons a L ih =>
    rw [List.foldl_cons, ih _ (fun hm => hk (List.mem_cons_of_mem _ hm)),
      dictFind?_insert_ne _ _ _ _
        (fun he => hk (by rw [he]; exact List.mem_cons_self a L))]

theorem dictFind?_foldl_insert_mem {β : Type} (L : List Nat) (m : Nat → β)
    (d0 : Dict β) (k : Nat) (hk : k ∈ L) (hnd : L.Nodup) :
    dictFind? (L.foldl (fun d i => dictInsert d i (m i)) d0) k = some (m k) := by
  induction L generalizing d0 with
  | nil => cases hk
  | cons a L ih =>
    rw [List.foldl_cons]
    rcases List.mem_cons.mp hk with he | hm
    · subst he
      rw [dictFind?_foldl_insert_not_mem L m _ k (List.nodup_cons.mp hnd).1,
        dictFind?_insert_self]
    · exact ih _ hm (List.nodup_cons.mp hnd).2

/-! ### Lemmas about the wrapper operations -/

theorem foldl_if_any {γ : Type} (L : List Nat) (P : Nat → Prop) [DecidablePred P]
    (c : γ) (init : γ) :
    L.foldl (fun t x => if P x then c else t) init =
      if L.any (fun x => decide (P x)) then c else init := by
  induction L generalizing init with
  | nil => simp
  | cons a L ih =>
    rw [List.foldl_cons, List.any_cons, ih]
    by_cases h : P a
    · simp [h]
    · simp [h]

theorem end_terminations_eq (g : Game) (env : WState g) :
    end_terminations g env =
      (if env.agents.any (fun x => decide (maskSum (dictGetD env.infos x []) = 0)) then
        env.agents.map (fun a => (a, true))
      else if g.is_terminal env.game_state then env.agents.map (fun a => (a, true))
      else env.agents.map (fun a => (a, false))) := by
  unfold end_terminations
  rw [foldl_if_any]

theorem end_routine_snd (g : Game) (env : WState g) :
    (end_routine g env).2 =
      (if endFlag g env then
        { env with
          terminations := end_terminations g env
          truncations := end_truncations g env
          agents := env.agents.erase env.agent_selection
          agent_selection :=
            match env.agents.erase env.agent_selection with
            | [] => env.agent_selection
            | a :: _ => a }
      else
        { env with
          terminations := end_terminations g env
          truncations := end_truncations g env }) := by
  unfold endFlag end_routine
  cases hc : (dictGetD (end_terminations g env) env.agent_selection false
      || dictGetD (end_truncations g env) env.agent_selection false) with
  | true => simp only [hc, if_true]
  | false => simp only [hc, Bool.false_eq_true, if_false]

theorem endFlag_eq (g : Game) (env : WState g) :
    endFlag g env =
      (dictGetD (end_terminations g env) env.agent_selection false
        || dictGetD (end_truncations g env) env.agent_selection false) := by
  unfold endFlag end_routine
  cases hc : (dictGetD (end_terminations g env) env.agent_selection false
      || dictGetD (end_truncations g env) env.agent_selection false) with
  | true => simp only [hc, if_true]
  | false => simp only [hc, Bool.false_eq_true, if_false]

theorem execute_chance_node_not_chance (g : Game) (fuel : Nat) (s : g.GS)
    (len : Nat) (rng : RNG) (h : g.is_chance_node s = false) :
    execute_chance_node g fuel s len rng = some (s, len, rng) := by
  cases fuel with
  | zero =>
    unfold execute_chance_node
    rw [h]
    rfl
  | succ f =>
    unfold execute_chance_node
    rw [h]
    rfl

theorem run_chance_not_chance (g : Game) (fuel : Nat) (env : WState g)
    (h : g.is_chance_node env.game_state = false) :
    run_chance g fuel env = some env := by
  unfold run_chance
  rw [execute_chance_node_not_chance g fuel _ _ _ h]
  rfl

theorem choiceFromOutcomes_mem (l : List (Nat × Rat)) (r : Rat) (h : l ≠ []) :
    ∃ p, (choiceFromOutcomes l r, p) ∈ l := by
  induction l generalizing r with
  | nil => exact absurd rfl h
  | cons x l ih =>
    obtain ⟨a, q⟩ := x
    cases l with
    | nil => exact ⟨q, by simp [choiceFromOutcomes]⟩
    | cons y l2 =>
      show ∃ p, (choiceFromOutcomes ((a, q) :: y :: l2) r, p) ∈ _
      rw [choiceFromOutcomes]
      by_cases hr : r < q
      · rw [if_pos hr]
        exact ⟨q, List.mem_cons_self _ _⟩
      · rw [if_neg hr]
        obtain ⟨p, hp⟩ := ih (r - q) (by simp)
        exact ⟨p, List.mem_cons_of_mem _ hp⟩

theorem execute_chance_node_resolved (g : Game)
    (hout : ∀ s, g.is_chance_node s = true → g.chance_outcomes s ≠ []) :
    ∀ (fuel : Nat) (s : g.GS) (len : Nat) (rng : RNG) out,
      execute_chance_node g fuel s len rng = some out →
      ChanceResolved g s out.1 ∧ g.is_chance_node out.1 = false := by
  intro fuel
  induction fuel with
  | zero =>
    intro s len rng out h
    unfold execute_chance_node at h
    cases hc : g.is_chance_node s with
    | false =>
      rw [hc] at h
      simp only [Bool.false_eq_true, if_neg] at h
      injection h with h
      subst h
      exact ⟨.done s hc, hc⟩
    | true =>
      rw [hc] at h
      simp at h
  | succ f ih =>
    intro s len rng out h
    unfold execute_chance_node at h
    cases hc : g.is_chance_node s with
    | false =>
      rw [hc] at h
      simp only [Bool.false_eq_true, if_neg] at h
      injection h with h
      subst h
      exact ⟨.done s hc, hc⟩
    | true =>
      rw [hc] at h
      simp only [if_pos] at h
      obtain ⟨hres, hnc⟩ := ih _ _ _ _ h
      obtain ⟨p, hp⟩ := choiceFromOutcomes_mem _ _ (hout s hc)
      exact ⟨.step _ _ _ p hc hp hres, hnc⟩

theorem run_chance_resolved (g : Game) (fuel : Nat) (env : WState g)
    (e : WState g)
    (hout : ∀ s, g.is_chance_node s = true → g.chance_outcomes s ≠ [])
    (h : run_chance g fuel env = some e) :
    ChanceResolved g env.game_state e.game_state ∧
      g.is_chance_node e.game_state = false := by
  unfold run_chance at h
  cases hec : execute_chance_node g fuel env.game_state env.game_length env.np_random with
  | none => rw [hec] at h; cases h
  | some r =>
    rw [hec] at h
    injection h with h
    subst h
    exact execute_chance_node_resolved g hout fuel _ _ _ r hec

theorem run_chance_frame (g : Game) (fuel : Nat) (env e : WState g)
    (h : run_chance g fuel env = some e) :
    e.agents = env.agents ∧ e.agent_selection = env.agent_selection ∧
    e.cumulative_rewards = env.cumulative_rewards ∧ e.rewards = env.rewards ∧
    e.terminations = env.terminations ∧ e.truncations = env.truncations ∧
    e.infos = env.infos ∧ e.simultaneous_actions = env.simultaneous_actions ∧
    e.observations = env.observations := by
  unfold run_chance at h
  cases hec : execute_chance_node g fuel env.game_state env.game_length env.np_random with
  | none => rw [hec] at h; cases h
  | some r =>
    rw [hec] at h
    injection h with h
    subst h
    exact ⟨rfl, rfl, rfl, rfl, rfl, rfl, rfl, rfl, rfl⟩

theorem update_observations_ok (g : Game) (env e : WState g)
    (h : update_observations g env = .ok e) :
    obs_loop g env.game_state env.agents = .ok e.observations ∧
    e.agents = env.agents ∧ e.agent_selection = env.agent_selection ∧
    e.cumulative_rewards = env.cumulative_rewards ∧ e.rewards = env.rewards ∧
    e.terminations = env.terminations ∧ e.truncations = env.truncations ∧
    e.infos = env.infos ∧ e.game_length = env.game_length ∧
    e.game_state = env.game_state ∧
    e.simultaneous_actions = env.simultaneous_actions := by
  unfold update_observations at h
  cases ho : obs_loop g env.game_state env.agents with
  | error err => rw [ho] at h; cases h
  | ok d =>
    rw [ho] at h
    injection h with h
    subst h
    exact ⟨rfl, rfl, rfl, rfl, rfl, rfl, rfl, rfl, rfl, rfl, rfl⟩

theorem update_action_masks_ok (g : Game) (env e : WState g)
    (h : update_action_masks g env = .ok e) :
    mask_loop g env.game_state (List.range g.num_players) env.infos = .ok e.infos ∧
    e.agents = env.agents ∧ e.agent_selection = env.agent_selection ∧
    e.cumulative_rewards = env.cumulative_rewards ∧ e.rewards = env.rewards ∧
    e.terminations = env.terminations ∧ e.truncations = env.truncations ∧
    e.observations = env.observations ∧ e.game_length = env.game_length ∧
    e.game_state = env.game_state ∧
    e.simultaneous_actions = env.simultaneous_actions := by
  unfold update_action_masks at h
  cases hm : mask_loop g env.game_state (List.range g.num_players) env.infos with
  | error err => rw [hm] at h; cases h
  | ok i =>
    rw [hm] at h
    injection h with h
    subst h
    exact ⟨rfl, rfl, rfl, rfl, rfl, rfl, rfl, rfl, rfl, rfl, rfl⟩

theorem update_rewards_frame (g : Game) (env : WState g) :
    (update_rewards g env).agents = env.agents ∧
    (update_rewards g env).agent_selection = env.agent_selection ∧
    (update_rewards g env).rewards = env.rewards ∧
    (update_rewards g env).terminations = env.terminations ∧
    (update_rewards g env).truncations = env.truncations ∧
    (update_rewards g env).infos = env.infos ∧
    (update_rewards g env).observations = env.observations ∧
    (update_rewards g env).game_length = env.game_length ∧
    (update_rewards g env).game_state = env.game_state ∧
    (update_rewards g env).simultaneous_actions = env.simultaneous_actions :=
  ⟨rfl, rfl, rfl, rfl, rfl, rfl, rfl, rfl, rfl, rfl⟩

theorem update_rewards_cumulative (g : Game) (env : WState g) :
    (update_rewards g env).cumulative_rewards =
      (List.range g.num_players).map
        (fun i => (i, (g.rewards env.game_state).getD i 0)) := rfl

theorem step_early (g : Game) (fuel : Nat) (env : WState g) (a : Nat)
    (h : endFlag g env = true) :
    step g fuel env a = .ok (end_routine g env).2 := by
  unfold endFlag at h
  unfold step
  split
  next e' her =>
    rw [her]
  next e' her =>
    rw [her] at h
    simp at h

theorem step_normal_ok (g : Game) (fuel : Nat) (env : WState g) (a : Nat)
    (e : WState g) (hflag : endFlag g env = false)
    (h : step g fuel env a = .ok e) :
    ∃ env1 env2 env3 env4,
      execute_action_node g (end_routine g env).2 a = .ok env1 ∧
      run_chance g fuel env1 = some env2 ∧
      update_observations g env2 = .ok env3 ∧
      update_action_masks g env3 = .ok env4 ∧
      e = update_rewards g env4 := by
  unfold endFlag at hflag
  unfold step at h
  split at h
  next e' her =>
    rw [her] at hflag
    simp at hflag
  next e' her =>
    rw [her]
    split at h
    next err hea => cases h
    next env1 hea =>
      split at h
      next hrc => cases h
      next env2 hrc =>
        split at h
        next err huo => cases h
        next env3 huo =>
          split at h
          next err hum => cases h
          next env4 hum =>
            injection h with h
            exact ⟨env1, env2, env3, env4, hea, hrc, huo, hum, h.symm⟩

theorem execute_action_node_frame (g : Game) (env : WState g) (a : Nat)
    (e : WState g) (h : execute_action_node g env a = .ok e) :
    e.agents = env.agents ∧ e.observations = env.observations ∧
    e.infos = env.infos ∧ e.terminations = env.terminations ∧
    e.truncations = env.truncations ∧ e.rewards = env.rewards ∧
    e.np_random = env.np_random := by
  unfold execute_action_node at h
  split at h
  · split at h
    next m hf =>
      injection h with h
      subst h
      exact ⟨rfl, rfl, rfl, rfl, rfl, rfl, rfl⟩
    next hf =>
      injection h with h
      subst h
      exact ⟨rfl, rfl, rfl, rfl, rfl, rfl, rfl⟩
  · split at h
    · split at h
      · injection h with h
        subst h
        exact ⟨rfl, rfl, rfl, rfl, rfl, rfl, rfl⟩
      · cases h
    · split at h
      next hag => cases h
      next b rest hag =>
        injection h with h
        subst h
        exact ⟨rfl, rfl, rfl, rfl, rfl, rfl, rfl⟩

theorem foldl_set_length (L : List Nat) (acc : List Int) :
    (L.foldl (fun m j => m.set j 1) acc).length = acc.length := by
  induction L generalizing acc with
  | nil => rfl
  | cons j L ih => rw [List.foldl_cons, ih, List.length_set]

theorem foldl_set_getD (L : List Nat) (acc : List Int) (i : Nat)
    (hi : i < acc.length) :
    (L.foldl (fun m j => m.set j 1) acc).getD i 0 =
      if i ∈ L then 1 else acc.getD i 0 := by
  induction L generalizing acc with
  | nil => simp
  | cons j L ih =>
    rw [List.foldl_cons, ih _ (by rw [List.length_set]; exact hi)]
    by_cases hij : i = j
    · subst hij
      rw [if_pos (List.mem_cons_self i L)]
      by_cases hiL : i ∈ L
      · rw [if_pos hiL]
      · rw [if_neg hiL, List.getD_eq_getElem?_getD, List.getElem?_set_self hi]
        rfl
    · have hset : (acc.set j 1).getD i 0 = acc.getD i 0 := by
        rw [List.getD_eq_getElem?_getD, List.getD_eq_getElem?_getD,
          List.getElem?_set_ne (fun he => hij (Eq.symm he))]
      by_cases hiL : i ∈ L
      · rw [if_pos hiL, if_pos (List.mem_cons_of_mem _ hiL)]
      · rw [if_neg hiL, hset,
          if_neg (fun hm => by
            rcases List.mem_cons.mp hm with he | hm2
            · exact hij he
            · exact hiL hm2)]

theorem action_mask_length (g : Game) (s : g.GS) (n agent_id : Nat) :
    (action_mask g s n agent_id).length = n := by
  unfold action_mask
  rw [foldl_set_length, List.length_replicate]

theorem action_mask_getD (g : Game) (s : g.GS) (n agent_id i : Nat) (hi : i < n) :
    (action_mask g s n agent_id).getD i 0 =
      if i ∈ g.legal_actions s agent_id then 1 else 0 := by
  unfold action_mask
  rw [foldl_set_getD _ _ _ (by rw [List.length_replicate]; exact hi)]
  by_cases hm : i ∈ g.legal_actions s agent_id
  · rw [if_pos hm, if_pos hm]
  · rw [if_neg hm, if_neg hm, List.getD_eq_getElem?_getD,
      List.getElem?_replicate_of_lt hi]
    rfl

theorem action_space_ok (g : Game) (agent : Nat) (n : Nat)
    (hn : g.num_distinct_actions = .ok n) :
    action_space g agent = .ok ⟨n⟩ := by
  unfold action_space
  rw [hn]

theorem mask_loop_eq (g : Game) (s : g.GS) (n : Nat)
    (hn : g.num_distinct_actions = .ok n) :
    ∀ (L : List Nat) (infos : Dict (List Int)),
      mask_loop g s L infos =
        .ok (L.foldl (fun d i => dictInsert d i (action_mask g s n i)) infos) := by
  intro L
  induction L with
  | nil => intro infos; rfl
  | cons b L ih =>
    intro infos
    show (match action_space g b with
      | .error e => (.error e : Except WrapErr (Dict (List Int)))
      | .ok d => mask_loop g s L (dictInsert infos b (action_mask g s d.n b))) = _
    rw [action_space_ok g b n hn]
    show mask_loop g s L (dictInsert infos b (action_mask g s n b)) = _
    rw [ih, List.foldl_cons]

theorem update_action_masks_eq (g : Game) (env : WState g) (n : Nat)
    (hn : g.num_distinct_actions = .ok n) :
    update_action_masks g env =
      .ok { env with infos := ((List.range g.num_players).foldl
        (fun d i => dictInsert d i (action_mask g env.game_state n i)) env.infos) } := by
  unfold update_action_masks
  rw [mask_loop_eq g env.game_state n hn]
  rfl

theorem obs_loop_cons (g : Game) (s : g.GS) (b : Nat) (L : List Nat) :
    obs_loop g s (b :: L) =
      (match g.observation_tensor s b with
      | .error e => .error e
      | .ok o =>
        match obs_loop g s L with
        | .error e => .error e
        | .ok d => .ok ((b, o) :: d)) := rfl

theorem obs_loop_find (g : Game) (s : g.GS) :
    ∀ (L : List Nat) (res : Dict Obs), obs_loop g s L = .ok res →
      ∀ a ∈ L, ∃ o, g.observation_tensor s a = .ok o ∧ dictFind? res a = some o := by
  intro L
  induction L with
  | nil =>
    intro res h a ha
    cases ha
  | cons b L ih =>
    intro res h a ha
    rw [obs_loop_cons] at h
    split at h
    next e ht => cases h
    next o ht =>
      split at h
      next e ho => cases h
      next d ho =>
        injection h with h
        subst h
        by_cases hba : b = a
        · subst hba
          refine ⟨o, ht, ?_⟩
          show (if b = b then some o else dictFind? d b) = some o
          rw [if_pos rfl]
        · rcases List.mem_cons.mp ha with he | hm
          · exact absurd (Eq.symm he) hba
          · obtain ⟨o2, ht2, hf2⟩ := ih d ho a hm
            refine ⟨o2, ht2, ?_⟩
            show (if b = a then some o else dictFind? d a) = some o2
            rw [if_neg hba, hf2]

theorem obs_loop_error (g : Game) (s : g.GS) :
    ∀ (L : List Nat),
      (∃ e, obs_loop g s L = .error e) ↔
        ∃ a ∈ L, ∃ e, g.observation_tensor s a = .error e := by
  intro L
  induction L with
  | nil => simp [obs_loop]
  | cons b L ih =>
    cases ht : g.observation_tensor s b with
    | error e =>
      constructor
      · intro _
        exact ⟨b, List.mem_cons_self b L, e, ht⟩
      · intro _
        refine ⟨e, ?_⟩
        rw [obs_loop_cons, ht]
    | ok o =>
      cases ho : obs_loop g s L with
      | error e2 =>
        constructor
        · intro _
          obtain ⟨a, ha, e3, ht3⟩ := ih.mp ⟨e2, ho⟩
          exact ⟨a, List.mem_cons_of_mem _ ha, e3, ht3⟩
        · intro _
          refine ⟨e2, ?_⟩
          rw [obs_loop_cons, ht, ho]
      | ok d =>
        constructor
        · intro ⟨e, he⟩
          rw [obs_loop_cons, ht, ho] at he
          cases he
        · intro ⟨a, ha, e, hte⟩
          rcases List.mem_cons.mp ha with hab | hm
          · rw [hab, ht] at hte
            cases hte
          · obtain ⟨e4, he4⟩ := ih.mpr ⟨a, hm, e, hte⟩
            rw [ho] at he4
            cases he4

theorem obs_loop_ok_total (g : Game) (s : g.GS) (L : List Nat)
    (h : ∀ a ∈ L, ∃ o, g.observation_tensor s a = .ok o) :
    ∃ res, obs_loop g s L = .ok res := by
  cases hres : obs_loop g s L with
  | ok res => exact ⟨res, rfl⟩
  | error e =>
    obtain ⟨a, ha, e2, hte⟩ := (obs_loop_error g s L).mp ⟨e, hres⟩
    obtain ⟨o, hto⟩ := h a ha
    rw [hto] at hte
    cases hte

theorem update_observations_ok_total (g : Game) (env : WState g)
    (h : ∀ a ∈ env.agents, ∃ o, g.observation_tensor env.game_state a = .ok o) :
    ∃ e, update_observations g env = .ok e := by
  obtain ⟨res, hres⟩ := obs_loop_ok_total g env.game_state env.agents h
  refine ⟨{ env with observations := res }, ?_⟩
  unfold update_observations
  rw [hres]

theorem end_routine_terminations (g : Game) (env : WState g) :
    ((end_routine g env).2).terminations = end_terminations g env := by
  rw [end_routine_snd]
  cases hf : endFlag g env with
  | true => simp only [hf, if_true]
  | false => simp only [hf, Bool.false_eq_true, if_false]

theorem end_routine_truncations (g : Game) (env : WState g) :
    ((end_routine g env).2).truncations = end_truncations g env := by
  rw [end_routine_snd]
  cases hf : endFlag g env with
  | true => simp only [hf, if_true]
  | false => simp only [hf, Bool.false_eq_true, if_false]

theorem end_routine_frame (g : Game) (env : WState g) :
    ((end_routine g env).2).game_state = env.game_state ∧
    ((end_routine g env).2).game_length = env.game_length ∧
    ((end_routine g env).2).observations = env.observations ∧
    ((end_routine g env).2).infos = env.infos ∧
    ((end_routine g env).2).simultaneous_actions = env.simultaneous_actions ∧
    ((end_routine g env).2).cumulative_rewards = env.cumulative_rewards ∧
    ((end_routine g env).2).rewards = env.rewards := by
  rw [end_routine_snd]
  cases hf : endFlag g env with
  | true =>
    simp only [hf, if_true]
    exact ⟨trivial, trivial, trivial, trivial, trivial, trivial, trivial⟩
  | false =>
    simp only [hf, Bool.false_eq_true, if_false]
    exact ⟨trivial, trivial, trivial, trivial, trivial, trivial, trivial⟩

theorem end_routine_false_frame (g : Game) (env : WState g)
    (hf : endFlag g env = false) :
    ((end_routine g env).2).agents = env.agents ∧
    ((end_routine g env).2).agent_selection = env.agent_selection := by
  rw [end_routine_snd]
  simp only [hf, Bool.false_eq_true, if_false]
  exact ⟨trivial, trivial⟩

theorem reset_ok (g : Game) (fuel : Nat) (rng : RNG) (e : WState g)
    (h : reset g fuel rng = .ok e) :
    ∃ env1 env2 env3,
      run_chance g fuel (reset_init g rng) = some env1 ∧
      update_observations g env1 = .ok env2 ∧
      update_action_masks g env2 = .ok env3 ∧
      0 ≤ g.current_player env3.game_state ∧
      (g.current_player env3.game_state).toNat < g.num_players ∧
      e = { env3 with
        agent_selection := (g.current_player env3.game_state).toNat } := by
  unfold reset at h
  split at h
  next hrc => cases h
  next env1 hrc =>
    split at h
    next err huo => cases h
    next env2 huo =>
      split at h
      next err hum => cases h
      next env3 hum =>
        split at h
        next hcp =>
          split at h
          next hlt =>
            injection h with h
            exact ⟨env1, env2, env3, hrc, huo, hum, hcp, hlt, h.symm⟩
          next hlt => cases h
        next hcp => cases h

theorem mask_fold_getD (g : Game) (s : g.GS) (n : Nat) (infos0 : Dict (List Int))
    (id : Nat) (hid : id < g.num_players) :
    dictFind? ((List.range g.num_players).foldl
      (fun d i => dictInsert d i (action_mask g s n i)) infos0) id =
      some (action_mask g s n id) :=
  dictFind?_foldl_insert_mem _ _ _ _ (List.mem_range.mpr hid) (List.nodup_range _)

theorem maskOK_of_fold (g : Game) (n : Nat) (e : WState g)
    (hinfos : ∀ id, id < g.num_players →
      dictFind? e.infos id = some (action_mask g e.game_state n id)) :
    MaskOK g n e := by
  intro id hid
  have hg : dictGetD e.infos id [] = action_mask g e.game_state n id := by
    rw [dictGetD, hinfos id hid]
    rfl
  rw [hg]
  refine ⟨action_mask_length g _ n id, ?_⟩
  intro i hi
  rw [action_mask_getD g _ n id i hi]
  by_cases hm : i ∈ g.legal_actions e.game_state id
  · rw [if_pos hm]
    exact ⟨by simp [hm], fun hnot => absurd hm hnot⟩
  · rw [if_neg hm]
    refine ⟨?_, fun _ => rfl⟩
    constructor
    · intro h01
      exact absurd h01 (by decide)
    · intro him
      exact absurd him hm

/-! ### Claim theorems -/

/-- C9: if any live agent's action mask is all zeros (its np.sum is 0),
the end-detection routine marks every live agent terminated, with no
hypothesis on whether the simulator state is terminal or on the other
agents' masks. -/
theorem zero_mask_terminates_all (g : Game) (env : WState g) (x : Nat)
    (hx : x ∈ env.agents) (hmask : maskSum (dictGetD env.infos x []) = 0) :
    ∀ b ∈ env.agents,
      dictGetD ((end_routine g env).2).terminations b false = true := by
  intro b hb
  rw [end_routine_terminations, end_terminations_eq]
  have hany : env.agents.any
      (fun y => decide (maskSum (dictGetD env.infos y []) = 0)) = true :=
    List.any_eq_true.mpr ⟨x, hx, decide_eq_true hmask⟩
  rw [if_pos hany]
  exact dictGetD_map_const env.agents true b false hb

/-- C9 witness: in the reset state of G5 player 0 has the all-zero mask
[0, 0]; the routine flags player 1 as well. -/
theorem zero_mask_terminates_all_witness :
    dictGetD ((end_routine G5 e0G5).2).terminations 1 false = true :=
  zero_mask_terminates_all G5 e0G5 0 (by decide) (by decide) 1 (by decide)

/-- C6 amended: whenever _end_routine runs, terminations is set uniformly
for every live agent to True exactly when the state is terminal OR some
live agent's action mask sums to zero (otherwise uniformly False), and
truncations uniformly to True exactly when game_length exceeds
max_game_length (otherwise uniformly False). -/
theorem end_routine_flags_uniform (g : Game) (env : WState g) :
    ∀ a ∈ env.agents,
      dictGetD ((end_routine g env).2).terminations a false =
        (g.is_terminal env.game_state ||
          env.agents.any (fun x => decide (maskSum (dictGetD env.infos x []) = 0))) ∧
      dictGetD ((end_routine g env).2).truncations a false =
        decide (g.max_game_length < env.game_length) := by
  intro a ha
  constructor
  · rw [end_routine_terminations, end_terminations_eq]
    cases hany : env.agents.any
        (fun x => decide (maskSum (dictGetD env.infos x []) = 0)) with
    | true =>
      rw [if_pos rfl, dictGetD_map_const _ _ _ _ ha, Bool.or_true]
    | false =>
      simp only [hany, Bool.false_eq_true, if_false, Bool.or_false]
      cases ht : g.is_terminal env.game_state with
      | true =>
        simp only [ht, if_true]
        exact dictGetD_map_const _ _ _ _ ha
      | false =>
        simp only [ht, Bool.false_eq_true, if_false]
        exact dictGetD_map_const _ _ _ _ ha
  · rw [end_routine_truncations]
    unfold end_truncations
    by_cases hl : g.max_game_length < env.game_length
    · rw [if_pos hl, dictGetD_map_const _ _ _ _ ha]
      exact (decide_eq_true hl).symm
    · rw [if_neg hl, dictGetD_map_const _ _ _ _ ha]
      exact (decide_eq_false hl).symm

/-- C6 witness: the flag characterization applied to player 1 in the
reset state of G5. -/
theorem end_routine_flags_uniform_witness :
    dictGetD ((end_routine G5 e0G5).2).terminations 1 false =
      (G5.is_terminal e0G5.game_state ||
        e0G5.agents.any (fun x => decide (maskSum (dictGetD e0G5.infos x []) = 0))) ∧
    dictGetD ((end_routine G5 e0G5).2).truncations 1 false =
      decide (G5.max_game_length < e0G5.game_length) :=
  end_routine_flags_uniform G5 e0G5 1 (by decide)

/-- C8 amended: when the end-detection RECOMPUTED from the current state
flags the selected agent, step retires only that agent, reselects the
first remaining agent if any, ignores its action argument, and leaves
game_state, game_length, infos (action masks), observations, the
simultaneous holder, cumulative rewards and rewards unchanged.  (The
counterexample shows the stored flags at entry do not decide this.) -/
theorem recomputed_end_step_frame (g : Game) (fuel : Nat) (env : WState g)
    (a a2 : Nat) (hflag : endFlag g env = true) :
    (step g fuel env a).toOption.map (fun e =>
      (e.agents, e.agent_selection, e.game_length, e.infos, e.observations,
       e.simultaneous_actions, e.cumulative_rewards, e.rewards)) =
      some (env.agents.erase env.agent_selection,
        (env.agents.erase env.agent_selection).headD env.agent_selection,
        env.game_length, env.infos, env.observations,
        env.simultaneous_actions, env.cumulative_rewards, env.rewards) ∧
    (step g fuel env a).toOption.map (fun e => e.game_state) =
      some env.game_state ∧
    step g fuel env a = step g fuel env a2 := by
  rw [step_early g fuel env a hflag, step_early g fuel env a2 hflag]
  refine ⟨?_, ?_, rfl⟩
  · rw [end_routine_snd]
    simp only [hflag, if_true]
    cases he : env.agents.erase env.agent_selection with
    | nil => rfl
    | cons c rest => rfl
  · rw [end_routine_snd]
    simp only [hflag, if_true]
    rfl

/-- C8 witness: on G1 in the state reached after the terminal step, the
recomputed detection triggers and the call is a pure retirement for any
action argument. -/
theorem recomputed_end_step_frame_witness :
    (step G1 0 e1G1 5).toOption.map (fun e =>
      (e.agents, e.agent_selection, e.game_length, e.infos, e.observations,
       e.simultaneous_actions, e.cumulative_rewards, e.rewards)) =
      some (e1G1.agents.erase e1G1.agent_selection,
        (e1G1.agents.erase e1G1.agent_selection).headD e1G1.agent_selection,
        e1G1.game_length, e1G1.infos, e1G1.observations,
        e1G1.simultaneous_actions, e1G1.cumulative_rewards, e1G1.rewards) ∧
    (step G1 0 e1G1 5).toOption.map (fun e => e.game_state) =
      some e1G1.game_state ∧
    step G1 0 e1G1 5 = step G1 0 e1G1 7 :=
  recomputed_end_step_frame G1 0 e1G1 5 7 (by decide)

/-- C1 amended (entry detection): a step called while the simulator state
is already terminal retires the selected agent before consuming any
action: the state and node counter are untouched, the agent is removed,
and terminations are all True for the agents present at entry.  Combined
with the counterexample, detection happens at the beginning of the next
step call, not before the terminal-reaching step returns. -/
theorem step_detects_ends_at_entry (g : Game) (fuel : Nat) (env : WState g)
    (a : Nat) (hterm : g.is_terminal env.game_state = true)
    (hsel : env.agent_selection ∈ env.agents) :
    (step g fuel env a).toOption.map (fun e => e.agents) =
      some (env.agents.erase env.agent_selection) ∧
    (step g fuel env a).toOption.map (fun e => e.game_state) =
      some env.game_state ∧
    (step g fuel env a).toOption.map (fun e => e.game_length) =
      some env.game_length ∧
    (step g fuel env a).toOption.map (fun e =>
        env.agents.map (fun b => dictGetD e.terminations b false)) =
      some (env.agents.map (fun _ => true)) := by
  have htermall : ∀ b ∈ env.agents,
      dictGetD (end_terminations g env) b false = true := by
    intro b hb
    rw [end_terminations_eq]
    cases hany : env.agents.any
        (fun x => decide (maskSum (dictGetD env.infos x []) = 0)) with
    | true =>
      rw [if_pos rfl]
      exact dictGetD_map_const _ _ _ _ hb
    | false =>
      simp only [hany, Bool.false_eq_true, if_false, hterm, if_true]
      exact dictGetD_map_const _ _ _ _ hb
  have hflag : endFlag g env = true := by
    rw [endFlag_eq, htermall env.agent_selection hsel, Bool.true_or]
  rw [step_early g fuel env a hflag]
  refine ⟨?_, ?_, ?_, ?_⟩
  · rw [end_routine_snd]
    simp only [hflag, if_true]
    rfl
  · rw [end_routine_snd]
    simp only [hflag, if_true]
    rfl
  · rw [end_routine_snd]
    simp only [hflag, if_true]
    rfl
  · have hmap : env.agents.map
        (fun b => dictGetD ((end_routine g env).2).terminations b false) =
        env.agents.map (fun _ => true) :=
      List.map_congr_left (fun b hb => by
        rw [end_routine_terminations]
        exact htermall b hb)
    exact congrArg some hmap

/-- C1 witness: the state after the terminal-reaching step on G1; the
next step retires the only agent without touching the game state. -/
theorem step_detects_ends_at_entry_witness :
    (step G1 0 e1G1 3).toOption.map (fun e => e.agents) =
      some (e1G1.agents.erase e1G1.agent_selection) ∧
    (step G1 0 e1G1 3).toOption.map (fun e => e.game_state) =
      some e1G1.game_state ∧
    (step G1 0 e1G1 3).toOption.map (fun e => e.game_length) =
      some e1G1.game_length ∧
    (step G1 0 e1G1 3).toOption.map (fun e =>
        e1G1.agents.map (fun b => dictGetD e.terminations b false)) =
      some (e1G1.agents.map (fun _ => true)) :=
  step_detects_ends_at_entry G1 0 e1G1 3 (by decide) (by decide)

theorem execute_action_node_sel (g : Game) (env : WState g) (a : Nat)
    (e : WState g) (hposs : env.agents = possible_agents g)
    (hsel : env.agent_selection ∈ env.agents)
    (h : execute_action_node g env a = .ok e) :
    e.agent_selection ∈ e.agents := by
  unfold execute_action_node at h
  split at h
  · split at h
    next m hf =>
      injection h with h
      subst h
      exact List.mem_of_find?_eq_some hf
    next hf =>
      injection h with h
      subst h
      exact hsel
  · split at h
    · split at h
      next hlt =>
        injection h with h
        subst h
        show (g.current_player (g.apply_action env.game_state (.single a))).toNat
          ∈ env.agents
        rw [hposs]
        exact List.mem_range.mpr hlt
      next hlt => cases h
    · split at h
      next hag => cases h
      next b rest hag =>
        injection h with h
        subst h
        show b ∈ env.agents
        rw [hag]
        exact List.mem_cons_self b rest

/-- C5 amended: exactly one agent is active after reset (its selection is
a live agent), after any retirement step that leaves agents, and after
any normal step taken before any retirement (agents still equal to
possible_agents); once agents have been retired, a later normal step can
select an agent outside self.agents (see the counterexample). -/
theorem agent_selection_membership (g : Game) (fuel : Nat) (rng : RNG)
    (env : WState g) (a : Nat) :
    (∀ e, reset g fuel rng = .ok e → e.agent_selection ∈ e.agents) ∧
    (endFlag g env = true → ∀ e, step g fuel env a = .ok e →
      e.agents ≠ [] → e.agent_selection ∈ e.agents) ∧
    (endFlag g env = false → env.agents = possible_agents g →
      env.agent_selection ∈ env.agents → ∀ e, step g fuel env a = .ok e →
      e.agent_selection ∈ e.agents) := by
  refine ⟨?_, ?_, ?_⟩
  · intro e h
    obtain ⟨env1, env2, env3, hrc, huo, hum, hcp, hlt, hE⟩ := reset_ok g fuel rng e h
    obtain ⟨ha2, _⟩ := run_chance_frame g fuel (reset_init g rng) env1 hrc
    obtain ⟨_, ha3, _⟩ := update_observations_ok g env1 env2 huo
    obtain ⟨_, ha4, _⟩ := update_action_masks_ok g env2 env3 hum
    subst hE
    show (g.current_player env3.game_state).toNat ∈ env3.agents
    rw [ha4, ha3, ha2]
    show (g.current_player env3.game_state).toNat ∈ possible_agents g
    exact List.mem_range.mpr hlt
  · intro hflag e hstep hne
    rw [step_early g fuel env a hflag] at hstep
    injection hstep with hstep
    subst hstep
    rw [end_routine_snd] at hne ⊢
    simp only [hflag, if_true] at hne ⊢
    cases he : env.agents.erase env.agent_selection with
    | nil =>
      rw [he] at hne
      exact absurd rfl hne
    | cons c rest => exact List.mem_cons_self c rest
  · intro hflag hposs hsel e hstep
    obtain ⟨env1, env2, env3, env4, hea, hrc, huo, hum, hE⟩ :=
      step_normal_ok g fuel env a e hflag hstep
    obtain ⟨hera, hers⟩ := end_routine_false_frame g env hflag
    have hsel1 : env1.agent_selection ∈ env1.agents := by
      apply execute_action_node_sel g (end_routine g env).2 a env1 ?_ ?_ hea
      · rw [hera]
        exact hposs
      · rw [hers, hera]
        exact hsel
    obtain ⟨ha2, hs2, _⟩ := run_chance_frame g fuel env1 env2 hrc
    obtain ⟨_, ha3, hs3, _⟩ := update_observations_ok g env2 env3 huo
    obtain ⟨_, ha4, hs4, _⟩ := update_action_masks_ok g env3 env4 hum
    subst hE
    show env4.agent_selection ∈ env4.agents
    rw [ha4, hs4, ha3, hs3, ha2, hs2]
    exact hsel1

/-- C5 witness: the reset clause applied to G1. -/
theorem agent_selection_membership_witness :
    e0G1.agent_selection ∈ e0G1.agents :=
  (agent_selection_membership G1 0 rng0 e0G1 0).1 e0G1 reset_G1_eq

/-- C3: a reset that returns exposes a non-chance state, reached from the
initial state by applying outcomes drawn from the chance_outcomes lists
(ChanceResolved); and a step that returns, called on a non-chance state,
again exposes a non-chance state. -/
theorem no_chance_node_exposed (g : Game) (fuel : Nat) (rng : RNG)
    (env : WState g) (a : Nat)
    (hout : ∀ s, g.is_chance_node s = true → g.chance_outcomes s ≠ []) :
    (∀ e, reset g fuel rng = .ok e →
      g.is_chance_node e.game_state = false ∧
      ChanceResolved g g.new_initial_state e.game_state) ∧
    (∀ e, g.is_chance_node env.game_state = false → step g fuel env a = .ok e →
      g.is_chance_node e.game_state = false) := by
  constructor
  · intro e h
    obtain ⟨env1, env2, env3, hrc, huo, hum, hcp, hlt, hE⟩ := reset_ok g fuel rng e h
    obtain ⟨hres, hnc⟩ := run_chance_resolved g fuel _ env1 hout hrc
    obtain ⟨_, _, _, _, _, _, _, _, _, hgs2, _⟩ := update_observations_ok g env1 env2 huo
    obtain ⟨_, _, _, _, _, _, _, _, _, hgs3, _⟩ := update_action_masks_ok g env2 env3 hum
    have hge : e.game_state = env1.game_state := by
      rw [hE]
      show env3.game_state = env1.game_state
      rw [hgs3, hgs2]
    rw [hge]
    exact ⟨hnc, hres⟩
  · intro e hnc h
    cases hflag : endFlag g env with
    | true =>
      rw [step_early g fuel env a hflag] at h
      injection h with h
      subst h
      rw [end_routine_snd]
      simp only [hflag, if_true]
      exact hnc
    | false =>
      obtain ⟨env1, env2, env3, env4, hea, hrc, huo, hum, hE⟩ :=
        step_normal_ok g fuel env a e hflag h
      obtain ⟨_, hncc⟩ := run_chance_resolved g fuel env1 env2 hout hrc
      obtain ⟨_, _, _, _, _, _, _, _, _, hgs3, _⟩ := update_observations_ok g env2 env3 huo
      obtain ⟨_, _, _, _, _, _, _, _, _, hgs4, _⟩ := update_action_masks_ok g env3 env4 hum
      have hge : e.game_state = env2.game_state := by
        rw [hE]
        show env4.game_state = env2.game_state
        rw [hgs4, hgs3]
      rw [hge]
      exact hncc

/-- C3 witness: G3 starts at a chance node with a single certain outcome;
the state reset exposes is not a chance node. -/
theorem no_chance_node_exposed_witness :
    ((reset G3 1 rng0).toOption.map
      (fun e => G3.is_chance_node e.game_state)) = some false := by
  have hout : ∀ s, G3.is_chance_node s = true → G3.chance_outcomes s ≠ [] := by
    intro s hs
    have hs0 : s = (0 : Nat) := by simpa [G3] using hs
    simp [G3, hs0]
  have hok : (reset G3 1 rng0).isOk = true := by decide
  cases hres : reset G3 1 rng0 with
  | error err =>
    rw [hres] at hok
    simp [Except.isOk, Except.toBool] at hok
  | ok e =>
    obtain ⟨hnc, _⟩ :=
      (no_chance_node_exposed G3 1 rng0 (reset_init G3 rng0) 0 hout).1 e hres
    show some (G3.is_chance_node e.game_state) = some false
    rw [hnc]

/-- C4: after a reset that returns, and after a step that returns taking
the state-advancing path, every agent's stored action mask is a 0/1
vector of length num_distinct_actions whose entry at a equals 1 iff a is
in legal_actions of the exposed state for that agent's id. -/
theorem action_mask_matches_legal_actions (g : Game) (fuel : Nat) (rng : RNG)
    (env : WState g) (a : Nat) (n : Nat)
    (hn : g.num_distinct_actions = .ok n) :
    (∀ e, reset g fuel rng = .ok e → MaskOK g n e) ∧
    (endFlag g env = false → ∀ e, step g fuel env a = .ok e → MaskOK g n e) := by
  constructor
  · intro e h
    obtain ⟨env1, env2, env3, hrc, huo, hum, hcp, hlt, hE⟩ := reset_ok g fuel rng e h
    obtain ⟨hml, _, _, _, _, _, _, _, _, hgs3, _⟩ :=
      update_action_masks_ok g env2 env3 hum
    rw [mask_loop_eq g env2.game_state n hn] at hml
    injection hml with hml
    subst hE
    apply maskOK_of_fold
    intro id hid
    show dictFind? env3.infos id = some (action_mask g env3.game_state n id)
    rw [← hml, hgs3]
    exact mask_fold_getD g env2.game_state n env2.infos id hid
  · intro hflag e h
    obtain ⟨env1, env2, env3, env4, hea, hrc, huo, hum, hE⟩ :=
      step_normal_ok g fuel env a e hflag h
    obtain ⟨hml, _, _, _, _, _, _, _, _, hgs4, _⟩ :=
      update_action_masks_ok g env3 env4 hum
    rw [mask_loop_eq g env3.game_state n hn] at hml
    injection hml with hml
    subst hE
    apply maskOK_of_fold
    intro id hid
    show dictFind? env4.infos id = some (action_mask g env4.game_state n id)
    rw [← hml, hgs4]
    exact mask_fold_getD g env3.game_state n env3.infos id hid

/-- C4 witness: the mask property in the reset state of G1. -/
theorem action_mask_matches_legal_actions_witness : MaskOK G1 2 e0G1 :=
  (action_mask_matches_legal_actions G1 0 rng0 e0G1 0 2 rfl).1 e0G1 reset_G1_eq

theorem execute_action_node_sim_collect (g : Game) (env : WState g) (a m : Nat)
    (hsim : g.is_simultaneous_node env.game_state = true)
    (hm : env.agents.find? (fun x => ! dictContains
        (dictInsert env.simultaneous_actions env.agent_selection a) x) = some m) :
    execute_action_node g env a = .ok
      { env with
        simultaneous_actions :=
          dictInsert env.simultaneous_actions env.agent_selection a
        cumulative_rewards := dictInsert env.cumulative_rewards env.agent_selection 0
        agent_selection := m } := by
  unfold execute_action_node
  rw [if_pos hsim, hm]

theorem execute_action_node_sim_apply (g : Game) (env : WState g) (a : Nat)
    (hsim : g.is_simultaneous_node env.game_state = true)
    (hm : env.agents.find? (fun x => ! dictContains
        (dictInsert env.simultaneous_actions env.agent_selection a) x) = none) :
    execute_action_node g env a = .ok
      { env with
        game_state := g.apply_action env.game_state
          (.multi (dictValues (dictInsert env.simultaneous_actions env.agent_selection a)))
        game_length := env.game_length + 1
        simultaneous_actions := []
        cumulative_rewards := dictInsert env.cumulative_rewards env.agent_selection 0 } := by
  unfold execute_action_node
  rw [if_pos hsim, hm]

theorem step_build (g : Game) (fuel : Nat) (env : WState g) (a : Nat)
    (env1 env3 env4 : WState g)
    (hflag : endFlag g env = false)
    (hea : execute_action_node g (end_routine g env).2 a = .ok env1)
    (hrc : run_chance g fuel env1 = some env1)
    (huo : update_observations g env1 = .ok env3)
    (hum : update_action_masks g env3 = .ok env4) :
    step g fuel env a = .ok (update_rewards g env4) := by
  unfold endFlag at hflag
  unfold step
  split
  next e' her =>
    rw [her] at hflag
    simp at hflag
  next e' her =>
    have hea' : execute_action_node g e' a = .ok env1 := by
      rw [her] at hea
      exact hea
    rw [hea']
    show (match run_chance g fuel env1 with
      | none => (.error .divergence : Except WrapErr (WState g))
      | some env2 =>
        match update_observations g env2 with
        | .error e => .error e
        | .ok env3 =>
          match update_action_masks g env3 with
          | .error e => .error e
          | .ok env4 => .ok (update_rewards g env4)) = _
    rw [hrc]
    show (match update_observations g env1 with
      | .error e => (.error e : Except WrapErr (WState g))
      | .ok env3 =>
        match update_action_masks g env3 with
        | .error e => .error e
        | .ok env4 => .ok (update_rewards g env4)) = _
    rw [huo]
    show (match update_action_masks g env3 with
      | .error e => (.error e : Except WrapErr (WState g))
      | .ok env4 => .ok (update_rewards g env4)) = _
    rw [hum]

/-- C2: on a simultaneous node (with the step taking the non-retirement
path), the selected agent's action is stored in the holder keyed by that
agent; while some live agent has not yet submitted, the simulator state
and node counter are unchanged and the first such agent becomes selected;
only once the holder covers every live agent is apply_action called, with
the collected values, after which the holder is empty (also at the end of
the full step). -/
theorem simultaneous_actions_collected (g : Game) (fuel : Nat)
    (env : WState g) (a : Nat) (n : Nat)
    (hsim : g.is_simultaneous_node env.game_state = true)
    (hchance : g.is_chance_node env.game_state = false)
    (hflag : endFlag g env = false)
    (hn : g.num_distinct_actions = .ok n)
    (hobs : ∀ i ∈ env.agents, ∃ o, g.observation_tensor env.game_state i = .ok o) :
    (∀ m, env.agents.find? (fun x => ! dictContains
        (dictInsert env.simultaneous_actions env.agent_selection a) x) = some m →
      (step g fuel env a).toOption.map (fun e =>
        (e.game_state, e.simultaneous_actions, e.agent_selection, e.game_length)) =
        some (env.game_state,
          dictInsert env.simultaneous_actions env.agent_selection a,
          m, env.game_length)) ∧
    (env.agents.find? (fun x => ! dictContains
        (dictInsert env.simultaneous_actions env.agent_selection a) x) = none →
      execute_action_node g env a = .ok
        { env with
          game_state := g.apply_action env.game_state
            (.multi (dictValues (dictInsert env.simultaneous_actions env.agent_selection a)))
          game_length := env.game_length + 1
          simultaneous_actions := []
          cumulative_rewards := dictInsert env.cumulative_rewards env.agent_selection 0 } ∧
      ∀ e, step g fuel env a = .ok e → e.simultaneous_actions = []) := by
  obtain ⟨hgsP, hlenP, hobsP, hinfP, hsimP, hcumP, hrewP⟩ := end_routine_frame g env
  obtain ⟨hagP, hselP⟩ := end_routine_false_frame g env hflag
  have hsim' : g.is_simultaneous_node ((end_routine g env).2).game_state = true := by
    rw [hgsP]
    exact hsim
  constructor
  · intro m hm
    have hm' : ((end_routine g env).2).agents.find? (fun x => ! dictContains
        (dictInsert ((end_routine g env).2).simultaneous_actions
          ((end_routine g env).2).agent_selection a) x) = some m := by
      rw [hagP, hsimP, hselP]
      exact hm
    have hea := execute_action_node_sim_collect g (end_routine g env).2 a m hsim' hm'
    have hgs1 : ({ (end_routine g env).2 with
        simultaneous_actions := dictInsert ((end_routine g env).2).simultaneous_actions
          ((end_routine g env).2).agent_selection a
        cumulative_rewards := dictInsert ((end_routine g env).2).cumulative_rewards
          ((end_routine g env).2).agent_selection 0
        agent_selection := m } : WState g).game_state = env.game_state := hgsP
    have hrc := run_chance_not_chance g fuel
      ({ (end_routine g env).2 with
        simultaneous_actions := dictInsert ((end_routine g env).2).simultaneous_actions
          ((end_routine g env).2).agent_selection a
        cumulative_rewards := dictInsert ((end_routine g env).2).cumulative_rewards
          ((end_routine g env).2).agent_selection 0
        agent_selection := m }) (by rw [hgs1]; exact hchance)
    obtain ⟨res, hres⟩ := obs_loop_ok_total g
      (({ (end_routine g env).2 with
        simultaneous_actions := dictInsert ((end_routine g env).2).simultaneous_actions
          ((end_routine g env).2).agent_selection a
        cumulative_rewards := dictInsert ((end_routine g env).2).cumulative_rewards
          ((end_routine g env).2).agent_selection 0
        agent_selection := m } : WState g)).game_state
      (({ (end_routine g env).2 with
        simultaneous_actions := dictInsert ((end_routine g env).2).simultaneous_actions
          ((end_routine g env).2).agent_selection a
        cumulative_rewards := dictInsert ((end_routine g env).2).cumulative_rewards
          ((end_routine g env).2).agent_selection 0
        agent_selection := m } : WState g)).agents
      (by
        intro i hi
        have hi' : i ∈ ((end_routine g env).2).agents := hi
        rw [hagP] at hi'
        show ∃ o, g.observation_tensor ((end_routine g env).2).game_state i = .ok o
        rw [hgsP]
        exact hobs i hi')
    have huo : update_observations g
        ({ (end_routine g env).2 with
          simultaneous_actions := dictInsert ((end_routine g env).2).simultaneous_actions
            ((end_routine g env).2).agent_selection a
          cumulative_rewards := dictInsert ((end_routine g env).2).cumulative_rewards
            ((end_routine g env).2).agent_selection 0
          agent_selection := m }) = .ok
        ({ (end_routine g env).2 with
          simultaneous_actions := dictInsert ((end_routine g env).2).simultaneous_actions
            ((end_routine g env).2).agent_selection a
          cumulative_rewards := dictInsert ((end_routine g env).2).cumulative_rewards
            ((end_routine g env).2).agent_selection 0
          agent_selection := m
          observations := res }) := by
      unfold update_observations
      rw [hres]
    have hum := update_action_masks_eq g
      ({ (end_routine g env).2 with
        simultaneous_actions := dictInsert ((end_routine g env).2).simultaneous_actions
          ((end_routine g env).2).agent_selection a
        cumulative_rewards := dictInsert ((end_routine g env).2).cumulative_rewards
          ((end_routine g env).2).agent_selection 0
        agent_selection := m
        observations := res }) n hn
    have hstep := step_build g fuel env a _ _ _ hflag hea hrc huo hum
    rw [hstep]
    show some (((end_routine g env).2).game_state,
        dictInsert ((end_routine g env).2).simultaneous_actions
          ((end_routine g env).2).agent_selection a,
        m, ((end_routine g env).2).game_length) = _
    rw [hgsP, hsimP, hselP, hlenP]
  · intro hm
    have hm' : ((end_routine g env).2).agents.find? (fun x => ! dictContains
        (dictInsert ((end_routine g env).2).simultaneous_actions
          ((end_routine g env).2).agent_selection a) x) = none := by
      rw [hagP, hsimP, hselP]
      exact hm
    refine ⟨execute_action_node_sim_apply g env a hsim hm, ?_⟩
    intro e hstep
    obtain ⟨env1, env2, env3, env4, hea, hrc, huo, hum, hE⟩ :=
      step_normal_ok g fuel env a e hflag hstep
    rw [execute_action_node_sim_apply g (end_routine g env).2 a hsim' hm'] at hea
    injection hea with hea
    have hsim1 : env1.simultaneous_actions = [] := by
      rw [← hea]
    obtain ⟨_, _, _, _, _, _, _, hsim2, _⟩ := run_chance_frame g fuel env1 env2 hrc
    obtain ⟨_, _, _, _, _, _, _, _, _, _, hsim3⟩ := update_observations_ok g env2 env3 huo
    obtain ⟨_, _, _, _, _, _, _, _, _, _, hsim4⟩ := update_action_masks_ok g env3 env4 hum
    rw [hE]
    show env4.simultaneous_actions = []
    rw [hsim4, hsim3, hsim2]
    exact hsim1

/-- C2 witness: on GSim, agent 0 submits action 3; the state does not
advance and agent 1 (the first without a stored action) becomes selected. -/
theorem simultaneous_actions_collected_witness :
    (step GSim 0 envSim 3).toOption.map (fun e =>
      (e.game_state, e.simultaneous_actions, e.agent_selection, e.game_length)) =
      some (envSim.game_state,
        dictInsert envSim.simultaneous_actions envSim.agent_selection 3,
        1, envSim.game_length) :=
  (simultaneous_actions_collected GSim 0 envSim 3 2 (by decide) (by decide)
    (by decide) rfl (fun i _ => ⟨[0], rfl⟩)).1 1 (by decide)

/-- C7: after a step that takes the state-advancing path, the recorded
cumulative reward of every player id is the entry at that id of the
simulator's rewards() list for the exposed state, and observe returns for
every live agent exactly the observation tensor the simulator computed
for the exposed state. -/
theorem rewards_and_observations_copied (g : Game) (fuel : Nat)
    (env : WState g) (a : Nat) (e : WState g)
    (hflag : endFlag g env = false) (h : step g fuel env a = .ok e)
    (hrlen : ∀ s : g.GS, g.num_players ≤ (g.rewards s).length) :
    (∀ id, id < g.num_players →
      dictFind? e.cumulative_rewards id = (g.rewards e.game_state)[id]?) ∧
    (∀ ag ∈ env.agents,
      g.observation_tensor e.game_state ag = .ok (observe e ag)) := by
  obtain ⟨env1, env2, env3, env4, hea, hrc, huo, hum, hE⟩ :=
    step_normal_ok g fuel env a e hflag h
  constructor
  · intro id hid
    subst hE
    show dictFind? ((List.range g.num_players).map
        (fun i => (i, (g.rewards env4.game_state).getD i 0))) id =
      (g.rewards env4.game_state)[id]?
    rw [dictFind?_map, if_pos (List.mem_range.mpr hid)]
    have hlen : id < (g.rewards env4.game_state).length :=
      lt_of_lt_of_le hid (hrlen env4.game_state)
    rw [List.getD_eq_getElem?_getD, List.getElem?_eq_getElem hlen]
    rfl
  · intro ag hag
    subst hE
    obtain ⟨hol, _, _, _, _, _, _, _, _, hgs3, _⟩ :=
      update_observations_ok g env2 env3 huo
    obtain ⟨ha2, _, _, _, _, _, _, _, _⟩ := run_chance_frame g fuel env1 env2 hrc
    obtain ⟨hagP, _⟩ := end_routine_false_frame g env hflag
    obtain ⟨haE, _, _, _, _, _, _⟩ :=
      execute_action_node_frame g (end_routine g env).2 a env1 hea
    obtain ⟨_, _, _, _, _, _, _, hobs4, _, hgs4, _⟩ :=
      update_action_masks_ok g env3 env4 hum
    have hmem : ag ∈ env2.agents := by
      rw [ha2, haE, hagP]
      exact hag
    obtain ⟨o, hto, hfo⟩ :=
      obs_loop_find g env2.game_state env2.agents env3.observations hol ag hmem
    have hoeq : observe (update_rewards g env4) ag = o := by
      unfold observe
      show dictGetD env4.observations ag [] = o
      rw [hobs4, dictGetD, hfo]
      rfl
    have hgse : (update_rewards g env4).game_state = env2.game_state := by
      show env4.game_state = env2.game_state
      rw [hgs4, hgs3]
    rw [hoeq, hgse]
    exact hto

/-- C7 witness: on G1 after the first step, the cumulative reward of
player 0 is rewards()[0] of the reached state, and observe returns its
tensor. -/
theorem rewards_and_observations_copied_witness :
    dictFind? e1G1.cumulative_rewards 0 = (G1.rewards e1G1.game_state)[0]? ∧
    G1.observation_tensor e1G1.game_state 0 = .ok (observe e1G1 0) :=
  ⟨(rewards_and_observations_copied G1 0 e0G1 0 e1G1 (by decide) step_G1_eq
      (fun s => by simp [G1])).1 0 (by decide),
   (rewards_and_observations_copied G1 0 e0G1 0 e1G1 (by decide) step_G1_eq
      (fun s => by simp [G1])).2 0 (by decide)⟩

/-- C10: observation_space / action_space return the translated
NotImplementedError exactly when the simulator's shape / action-count
query raises a SpielError (and the Box / Discrete built from the value
otherwise); the observation update raises the translated
NotImplementedError exactly when some live agent's tensor query raises,
and can raise nothing else; render always raises NotImplementedError. -/
theorem error_translation (g : Game) (env : WState g) (agent : Nat) :
    (∀ sh, g.observation_tensor_shape = .ok sh →
      observation_space g agent = .ok ⟨sh⟩) ∧
    (∀ err, g.observation_tensor_shape = .error err →
      observation_space g agent = .error (.notImplementedError (pyErrMsg g err))) ∧
    ((∃ m, observation_space g agent = .error (.notImplementedError m)) ↔
      (∃ err, g.observation_tensor_shape = .error err)) ∧
    (∀ n, g.num_distinct_actions = .ok n → action_space g agent = .ok ⟨n⟩) ∧
    (∀ err, g.num_distinct_actions = .error err →
      action_space g agent = .error (.notImplementedError (pyErrMsg g err))) ∧
    ((∃ m, action_space g agent = .error (.notImplementedError m)) ↔
      (∃ err, g.num_distinct_actions = .error err)) ∧
    ((∃ m, update_observations g env = .error (.notImplementedError m)) ↔
      (∃ x ∈ env.agents, ∃ err,
        g.observation_tensor env.game_state x = .error err)) ∧
    (∀ werr, update_observations g env = .error werr →
      ∃ m, werr = .notImplementedError m) ∧
    render g = .error (.notImplementedError "No render available for openspiel.") := by
  refine ⟨?_, ?_, ?_, ?_, ?_, ?_, ?_, ?_, rfl⟩
  · intro sh hs
    unfold observation_space
    rw [hs]
  · intro err herr
    unfold observation_space
    rw [herr]
  · constructor
    · intro ⟨m, hm⟩
      cases hsh : g.observation_tensor_shape with
      | ok sh =>
        unfold observation_space at hm
        rw [hsh] at hm
        cases hm
      | error err => exact ⟨err, rfl⟩
    · intro ⟨err, herr⟩
      refine ⟨pyErrMsg g err, ?_⟩
      unfold observation_space
      rw [herr]
  · intro n hn
    unfold action_space
    rw [hn]
  · intro err herr
    unfold action_space
    rw [herr]
  · constructor
    · intro ⟨m, hm⟩
      cases hna : g.num_distinct_actions with
      | ok n =>
        unfold action_space at hm
        rw [hna] at hm
        cases hm
      | error err => exact ⟨err, rfl⟩
    · intro ⟨err, herr⟩
      refine ⟨pyErrMsg g err, ?_⟩
      unfold action_space
      rw [herr]
  · constructor
    · intro ⟨m, hm⟩
      unfold update_observations at hm
      split at hm
      next err ho => exact (obs_loop_error g env.game_state env.agents).mp ⟨err, ho⟩
      next d ho => cases hm
    · intro hx
      obtain ⟨err2, ho⟩ := (obs_loop_error g env.game_state env.agents).mpr hx
      refine ⟨pyErrMsg g err2, ?_⟩
      unfold update_observations
      rw [ho]
  · intro werr hw
    unfold update_observations at hw
    split at hw
    next err ho =>
      injection hw with hw
      exact ⟨pyErrMsg g err, hw.symm⟩
    next d ho => cases hw

/-- C10 witness: on Gerr all three queries raise and are translated. -/
theorem error_translation_witness :
    observation_space Gerr 0 =
      .error (.notImplementedError (pyErrMsg Gerr ⟨"Observation shape unknown."⟩)) ∧
    action_space Gerr 0 =
      .error (.notImplementedError (pyErrMsg Gerr ⟨"Action count unknown."⟩)) ∧
    render Gerr = .error (.notImplementedError "No render available for openspiel.") :=
  ⟨(error_translation Gerr (reset_init Gerr rng0) 0).2.1 ⟨"Observation shape unknown."⟩ rfl,
   (error_translation Gerr (reset_init Gerr rng0) 0).2.2.2.2.1 ⟨"Action count unknown."⟩ rfl,
   (error_translation Gerr (reset_init Gerr rng0) 0).2.2.2.2.2.2.2.2⟩

/-- C1 counterexample: in G1, the step that applies the terminal-reaching
action returns with the game state terminal but terminations and
truncations still all False and the finished agent still in agents:
end-detection is not run before that step returns. -/
theorem step_reaching_terminal_leaves_flags_unset :
    (((reset G1 0 rng0).bind (fun e0 => step G1 0 e0 0)).toOption.map
      (fun e => (G1.is_terminal e.game_state, dictGetD e.terminations 0 false,
                 dictGetD e.truncations 0 false, e.agents))) =
    some (true, false, false, [0]) := by
  rw [reset_G1_eq]
  show ((step G1 0 e0G1 0).toOption.map _) = _
  rw [step_G1_eq]
  rfl

/-- C5 counterexample: in G5, after reset the zero action mask of player
0 retires it on the first step; the second step advances the state for
player 1 and then selects current_player = 0, an agent no longer in
self.agents. -/
theorem selection_can_leave_agents :
    ((((reset G5 0 rng0).bind (fun e0 => step G5 0 e0 9)).bind
        (fun e1 => step G5 0 e1 1)).toOption.map
      (fun e => (e.agents, e.agent_selection,
                 decide (e.agent_selection ∈ e.agents)))) =
    some ([1], 0, false) := by
  rw [reset_G5_eq]
  show (((step G5 0 e0G5 9).bind (fun e1 => step G5 0 e1 1)).toOption.map _) = _
  rw [step1_G5_eq]
  show ((step G5 0 e1G5 1).toOption.map _) = _
  rw [step2_G5_eq]
  rfl

/-- C6 counterexample: in G5 the first step's end-detection sets
terminations True for every agent although the game state is not
terminal, because player 0 has an all-zero action mask. -/
theorem terminations_true_without_terminal :
    (((reset G5 0 rng0).bind (fun e0 => step G5 0 e0 9)).toOption.map
      (fun e => (G5.is_terminal e.game_state, dictGetD e.terminations 0 false,
                 dictGetD e.terminations 1 false))) =
    some (false, true, true) := by
  rw [reset_G5_eq]
  show ((step G5 0 e0G5 9).toOption.map _) = _
  rw [step1_G5_eq]
  rfl

/-- C8 counterexample: in G5, after the first step the selected agent
(player 1) is flagged terminated in the stored dict, yet the next step
call does not return immediately: it applies the action and advances
game_state and game_length. -/
theorem flagged_agent_step_still_advances :
    (((reset G5 0 rng0).bind (fun e0 => step G5 0 e0 9)).toOption.map
      (fun e1 => (e1.agent_selection, dictGetD e1.terminations 1 false,
                  (step G5 0 e1 1).toOption.map
                    (fun e2 => ((e2.game_state : Nat), e2.game_length))))) =
    some (1, true, some ((1 : Nat), (2 : Nat))) := by
  rw [reset_G5_eq]
  show ((step G5 0 e0G5 9).toOption.map _) = _
  rw [step1_G5_eq]
  show (some (e1G5.agent_selection, dictGetD e1G5.terminations 1 false,
        (step G5 0 e1G5 1).toOption.map
          (fun e2 => ((e2.game_state : Nat), e2.game_length)))) = _
  rw [step2_G5_eq]
  rfl

end Shimmy
